import Mathlib

/-!
Verification of the rainfall Q&A pipeline (query_parser.py, data_analyzer.py,
answer_generator.py) as a shallow embedding.  Tables are typed column stores
(numeric cells are exact rationals; the loader's contract coerces numeric
columns, so float NaN artifacts are outside the model).  Pandas operations
that raise (the `.str` accessor on a numeric column, `idxmax` on a text
column, group-by aggregation of a text metric) are modelled with `Except`.
-/

/-! ## String utilities (Python `in`, `.lower()` on ASCII text) -/

/-- `starts_with_chars needle hay` : `needle` is a prefix of `hay`. -/
def starts_with_chars : List Char → List Char → Bool
  | [], _ => true
  | _ :: _, [] => false
  | a :: as, b :: bs => a == b && starts_with_chars as bs

/-- `contains_chars needle hay` : `needle` occurs as a contiguous substring of `hay`
(Python `needle in hay`). -/
def contains_chars (needle : List Char) : List Char → Bool
  | [] => starts_with_chars needle []
  | c :: rest => starts_with_chars needle (c :: rest) || contains_chars needle rest

/-- Python `needle in hay` on strings. -/
def str_contains (hay needle : String) : Bool :=
  contains_chars needle.data hay.data

/-- Python `str.lower` (ASCII), as a map over the character list. -/
def str_to_lower (s : String) : String :=
  String.mk (s.data.map Char.toLower)

/-! ## `sorted(list(set(...)))` : insertion into a sorted duplicate-free list -/

/-- Insert into a strictly ascending list, dropping duplicates. -/
def insert_asc {α : Type} [LinearOrder α] (x : α) : List α → List α
  | [] => [x]
  | y :: ys => if x < y then x :: y :: ys else if x = y then y :: ys else y :: insert_asc x ys

/-- The sorted duplicate-free list of the elements of `l`
(Python `sorted(list(set(l)))`). -/
def sorted_dedup {α : Type} [LinearOrder α] (l : List α) : List α :=
  l.foldl (fun acc x => insert_asc x acc) []

theorem mem_insert_asc {α : Type} [LinearOrder α] (x a : α) (l : List α) :
    a ∈ insert_asc x l ↔ a = x ∨ a ∈ l := by
  induction l with
  | nil => simp [insert_asc]
  | cons y ys ih =>
    by_cases h1 : x < y
    · simp [insert_asc, h1]
    · by_cases h2 : x = y
      · subst h2
        simp only [insert_asc, if_neg h1, if_pos rfl]
        constructor
        · intro h; exact Or.inr h
        · rintro (rfl | h)
          · exact List.mem_cons_self _ _
          · exact h
      · simp only [insert_asc, if_neg h1, if_neg h2, List.mem_cons, ih]
        tauto

theorem pairwise_insert_asc {α : Type} [LinearOrder α] (x : α) (l : List α)
    (h : l.Pairwise (· < ·)) : (insert_asc x l).Pairwise (· < ·) := by
  induction l with
  | nil => simp [insert_asc]
  | cons y ys ih =>
    rcases List.pairwise_cons.mp h with ⟨hy, hys⟩
    by_cases h1 : x < y
    · simp only [insert_asc, if_pos h1]
      refine List.pairwise_cons.mpr ⟨?_, h⟩
      intro z hz
      rcases List.mem_cons.mp hz with rfl | hz
      · exact h1
      · exact lt_trans h1 (hy z hz)
    · by_cases h2 : x = y
      · subst h2
        simp only [insert_asc, if_neg h1, if_pos rfl]
        exact h
      · simp only [insert_asc, if_neg h1, if_neg h2]
        refine List.pairwise_cons.mpr ⟨?_, ih hys⟩
        intro z hz
        rcases (mem_insert_asc x z ys).mp hz with rfl | hz
        · exact lt_of_le_of_ne (not_lt.mp h1) (Ne.symm h2)
        · exact hy z hz

theorem sorted_dedup_spec {α : Type} [LinearOrder α] (l : List α) :
    (sorted_dedup l).Pairwise (· < ·) ∧ ∀ a, a ∈ sorted_dedup l ↔ a ∈ l := by
  have main : ∀ (l acc : List α), acc.Pairwise (· < ·) →
      (l.foldl (fun acc x => insert_asc x acc) acc).Pairwise (· < ·) ∧
      ∀ a, a ∈ l.foldl (fun acc x => insert_asc x acc) acc ↔ a ∈ l ∨ a ∈ acc := by
    intro l
    induction l with
    | nil => intro acc hacc; simpa using hacc
    | cons x xs ih =>
      intro acc hacc
      have h1 := pairwise_insert_asc x acc hacc
      rcases ih (insert_asc x acc) h1 with ⟨hp, hm⟩
      refine ⟨hp, ?_⟩
      intro a
      rw [List.foldl_cons] at *
      rw [hm a, mem_insert_asc]
      simp only [List.mem_cons]
      tauto
  rcases main l [] List.Pairwise.nil with ⟨hp, hm⟩
  exact ⟨hp, fun a => by simpa using hm a⟩

/-! ## Year extraction (`_extract_years` in query_parser.py)

The two regexes are embedded as left-to-right non-overlapping scanners, the
semantics of `re.findall`.  Word characters and whitespace follow the ASCII
fragment of Python's `\w` and `\s`. -/

/-- Python regex `\w` (ASCII fragment). -/
def is_word_char (c : Char) : Bool := c.isAlphanum || c == '_'

/-- Python regex `\s` (ASCII fragment). -/
def is_space_char (c : Char) : Bool := c == ' ' || c == '\t' || c == '\n' || c == '\r'

/-- Word boundary after a match: next char absent or not a word char. -/
def boundary_after : List Char → Bool
  | [] => true
  | c :: _ => !is_word_char c

/-- Match the group `(19\d{2}|20\d{2}|21\d{2})` at the head of the list,
returning the year and the rest. -/
def year4 : List Char → Option (Int × List Char)
  | a :: b :: c :: d :: rest =>
    if ((a == '1' && b == '9') || (a == '2' && (b == '0' || b == '1')))
        && c.isDigit && d.isDigit then
      some ((1000 * ((a.toNat : Int) - 48) + 100 * ((b.toNat : Int) - 48)
        + 10 * ((c.toNat : Int) - 48) + ((d.toNat : Int) - 48)), rest)
    else none
  | _ => none

/-- Scanner for `\b(19\d{2}|20\d{2}|21\d{2})\b`: at each position where the
preceding char is not a word char, try a 4-digit year followed by a
boundary; on success consume it (non-overlapping `findall`). -/
def scan_bare_years (fuel : Nat) (prevWord : Bool) (l : List Char) : List Int :=
  match fuel with
  | 0 => []
  | fuel + 1 =>
    match l with
    | [] => []
    | c :: rest =>
      match (if prevWord then none else year4 (c :: rest)) with
      | some (y, rest4) =>
        if boundary_after rest4 then y :: scan_bare_years fuel true rest4
        else scan_bare_years fuel (is_word_char c) rest
      | none => scan_bare_years fuel (is_word_char c) rest

/-- Greedy `\s*`. -/
def skip_spaces : List Char → List Char
  | [] => []
  | c :: rest => if is_space_char c then skip_spaces rest else c :: rest

/-- The separator `\s*(?:to|-|–)\s*`. -/
def range_sep (l : List Char) : Option (List Char) :=
  match skip_spaces l with
  | 't' :: 'o' :: rest => some (skip_spaces rest)
  | '-' :: rest => some (skip_spaces rest)
  | '–' :: rest => some (skip_spaces rest)
  | _ => none

/-- Try `(19|20|21)\d{2}\s*(?:to|-|–)\s*(19|20|21)\d{2}\b` at the head of the
list (the leading `\b` is the caller's concern). -/
def try_range (l : List Char) : Option (Int × Int × List Char) :=
  match year4 l with
  | none => none
  | some (y1, r1) =>
    match range_sep r1 with
    | none => none
    | some r2 =>
      match year4 r2 with
      | none => none
      | some (y2, r3) => if boundary_after r3 then some (y1, y2, r3) else none

/-- Scanner for the year-range regex, non-overlapping `findall`. -/
def scan_year_ranges (fuel : Nat) (prevWord : Bool) (l : List Char) : List (Int × Int) :=
  match fuel with
  | 0 => []
  | fuel + 1 =>
    match l with
    | [] => []
    | c :: rest =>
      match (if prevWord then none else try_range (c :: rest)) with
      | some (y1, y2, rest') => (y1, y2) :: scan_year_ranges fuel true rest'
      | none => scan_year_ranges fuel (is_word_char c) rest

/-- Python `range(a, b + 1)` over integers, as a list. -/
def int_range_incl (a b : Int) : List Int :=
  (List.range (b + 1 - a).toNat).map (fun (k : Nat) => a + (k : Int))

/-- The bare 4-digit years found in a question. -/
def bare_years (question : String) : List Int :=
  scan_bare_years question.data.length false question.data

/-- The year ranges found in a question. -/
def year_ranges (question : String) : List (Int × Int) :=
  scan_year_ranges question.data.length false question.data

/-- `QueryParser._extract_years`: bare years plus every integer of each found
range, deduplicated and sorted ascending. -/
def extract_years (question : String) : List Int :=
  sorted_dedup (bare_years question ++
    (year_ranges question).flatMap (fun p => int_range_incl p.1 p.2))

/-! ## Data model: tables as typed column stores

The loader (data_loader.py) delivers a DataFrame with typed columns and a
contiguous zero-based index; `DataAnalyzer.__init__` re-asserts that index.
Numeric columns hold exact rationals, text columns hold optional strings
(`none` is a null cell). -/

/-- A non-null cell value. -/
inductive CellVal where
  | num (q : ℚ)
  | str (s : String)
deriving DecidableEq

/-- The values of one column, tagged with its dtype. -/
inductive ColData where
  | numeric (vals : List ℚ)
  | text (vals : List (Option String))
deriving DecidableEq

structure Col where
  name : String
  data : ColData
deriving DecidableEq

/-- A table snapshot: named typed columns and a row count.  Row indices are
`0 .. nRows - 1`, the unit of citation. -/
structure Table where
  cols : List Col
  nRows : Nat
deriving DecidableEq

/-- `df[c]`: the first column named `c`. -/
def Table.colData (t : Table) (c : String) : Option ColData :=
  (t.cols.find? (fun col => col.name == c)).map (·.data)

/-- The cell of column `d` at row `i`: `none` = row out of range,
`some none` = null cell. -/
def ColData.cell? : ColData → Nat → Option (Option CellVal)
  | .numeric vals, i => (vals.get? i).map (fun q => some (.num q))
  | .text vals, i => (vals.get? i).map (fun s? => s?.map .str)

/-- `df.loc[i, c]`: `none` = lookup failure (missing row or column). -/
def Table.lookup (t : Table) (i : Nat) (c : String) : Option (Option CellVal) :=
  (t.colData c).bind (fun d => d.cell? i)

/-- The numeric cell at row `i` of column `c`, defaulting to `0`
(used only under hypotheses making the lookup succeed). -/
def Table.num_at (t : Table) (c : String) (i : Nat) : ℚ :=
  match t.colData c with
  | some (.numeric vals) => vals.getD i 0
  | _ => 0

/-- Whether `c` names a numeric column of `t` (`is_numeric_dtype(df[c])`). -/
def is_numeric_col (t : Table) (c : String) : Bool :=
  match t.colData c with
  | some (.numeric _) => true
  | _ => false

/-- Rendering of a cell for substring matching and citations (Python `str`).
The decimal repr of floats is abstracted by the rational repr. -/
def cell_val_str : CellVal → String
  | .num q => toString q
  | .str s => s

/-- Pandas `==`/`isin` comparison of two non-null cells. -/
def cell_eq : CellVal → CellVal → Bool
  | .num a, .num b => a == b
  | .str a, .str b => a == b
  | _, _ => false

/-- Pandas `Series.isin`: a null or failed cell is never in the list. -/
def isin_cell (x : Option (Option CellVal)) (l : List CellVal) : Bool :=
  match x with
  | some (some v) => l.any (cell_eq v)
  | _ => false

/-- `_find_columns_by_keywords` (query_parser.py) and the analyzer's
`_find_*_columns`: columns whose lowercased name contains a keyword. -/
def find_columns_by_keywords (t : Table) (keywords : List String) : List String :=
  (t.cols.filter (fun c => keywords.any (fun k => str_contains (str_to_lower c.name) k))).map (·.name)

def find_state_columns (t : Table) : List String :=
  find_columns_by_keywords t ["state", "region", "district", "area", "location"]

def find_year_columns (t : Table) : List String :=
  find_columns_by_keywords t ["year", "yr"]

def find_month_columns (t : Table) : List String :=
  find_columns_by_keywords t ["month", "mon"]

/-! ## QueryParser (query_parser.py) -/

/-- The ordered intent table of `QueryParser.__init__` (Python dicts preserve
insertion order, so `_extract_intent` checks in exactly this order). -/
def intent_patterns : List (String × List String) :=
  [("compare", ["compare", "difference between", "vs", "versus"]),
   ("maximum", ["highest", "maximum", "max", "most", "greatest", "largest"]),
   ("minimum", ["lowest", "minimum", "min", "least", "smallest"]),
   ("average", ["average", "mean", "avg"]),
   ("sum", ["total", "sum", "combined"]),
   ("trend", ["trend", "pattern", "over time", "change"]),
   ("list", ["list", "show", "display", "what are"]),
   ("count", ["how many", "count", "number of"])]

/-- `_extract_intent`: first intent with a matching trigger phrase, else the
generic default. -/
def extract_intent (question : String) : String :=
  match intent_patterns.find? (fun ip => ip.2.any (fun p => str_contains question p)) with
  | some ip => ip.1
  | none => "query"

def month_names : List String :=
  ["january", "february", "march", "april", "may", "june",
   "july", "august", "september", "october", "november", "december",
   "jan", "feb", "mar", "apr", "may", "jun", "jul", "aug", "sep", "oct", "nov", "dec"]

def season_names : List String :=
  ["monsoon", "winter", "summer", "spring", "autumn", "fall"]

structure Entities where
  states : List CellVal
  months : List String
  seasons : List String
deriving DecidableEq

/-- `Series.unique` after `dropna`: distinct values, first occurrence first. -/
def unique_first {α : Type} [DecidableEq α] : List α → List α → List α
  | [], _ => []
  | x :: xs, seen =>
    if seen.contains x then unique_first xs seen else x :: unique_first xs (x :: seen)

/-- The distinct non-null values of a column. -/
def col_unique_vals : ColData → List CellVal
  | .numeric vals => unique_first (vals.map CellVal.num) []
  | .text vals => unique_first (vals.filterMap (fun s? => s?.map CellVal.str)) []

/-- `_extract_entities`: region values of the first role column present in
the question, plus month and season names present in the question. -/
def extract_entities (question : String) (t : Table) : Entities :=
  { states :=
      match find_state_columns t with
      | [] => []
      | sc :: _ =>
        match t.colData sc with
        | some d => (col_unique_vals d).filter
            (fun v => str_contains question (str_to_lower (cell_val_str v)))
        | none => []
    months := month_names.filter (fun m => str_contains question m)
    seasons := season_names.filter (fun s => str_contains question s) }

def rainfall_keywords : List String := ["rainfall", "rain", "precipitation", "mm", "millimeter"]

def temperature_keywords : List String := ["temperature", "temp", "celsius", "fahrenheit"]

/-- `_extract_metrics`: numeric columns selected by name/keyword matching,
falling back to all numeric columns. -/
def extract_metrics (question : String) (t : Table) : List String :=
  let numeric_cols := (t.cols.filter (fun c => match c.data with
    | .numeric _ => true
    | .text _ => false)).map (·.name)
  let metrics := numeric_cols.filter (fun col =>
    if str_contains question (str_to_lower col) then true
    else if rainfall_keywords.any (fun k => str_contains (str_to_lower col) k) then
      rainfall_keywords.any (fun k => str_contains question k)
    else if temperature_keywords.any (fun k => str_contains (str_to_lower col) k) then
      temperature_keywords.any (fun k => str_contains question k)
    else false)
  if metrics.isEmpty then numeric_cols else metrics

structure Filters where
  states : List CellVal
  years : List Int
  months : List String
  seasons : List String
deriving DecidableEq

structure ParsedQuery where
  original_question : String
  intent : String
  entities : Entities
  years : List Int
  metrics : List String
  filters : Filters
deriving DecidableEq

/-- `QueryParser.parse`: lowercase the question, extract intent, entities,
years and metrics, and assemble the filters (an empty list is the absent
filter key). -/
def parse (question : String) (t : Table) : ParsedQuery :=
  let ql := str_to_lower question
  let ents := extract_entities ql t
  let yrs := extract_years ql
  { original_question := question
    intent := extract_intent ql
    entities := ents
    years := yrs
    metrics := extract_metrics ql t
    filters := { states := ents.states, years := yrs
                 months := ents.months, seasons := ents.seasons } }

/-! ## DataAnalyzer (data_analyzer.py)

A filtered DataFrame is the list of kept original row indices (boolean
filtering preserves the original index labels, here equal to positions after
the constructor's `reset_index`). -/

/-- `_apply_filters`: narrow by states, then years, then months; a missing
role column skips that dimension.  The month filter uses the `.str`
accessor, which raises on a non-text column: that is the `.error` case. -/
def apply_filters (t : Table) (f : Filters) : Except Unit (List Nat) :=
  let idxs0 := List.range t.nRows
  let idxs1 :=
    if f.states.isEmpty then idxs0 else
      match find_state_columns t with
      | [] => idxs0
      | sc :: _ => idxs0.filter (fun i => isin_cell (t.lookup i sc) f.states)
  let idxs2 :=
    if f.years.isEmpty then idxs1 else
      match find_year_columns t with
      | [] => idxs1
      | yc :: _ => idxs1.filter (fun i =>
          isin_cell (t.lookup i yc) (f.years.map (fun y => CellVal.num (y : ℚ))))
  if f.months.isEmpty then .ok idxs2 else
    match find_month_columns t with
    | [] => .ok idxs2
    | mc :: _ =>
      match t.colData mc with
      | some (.text vals) =>
        .ok (idxs2.filter (fun i =>
          match vals.get? i with
          | some (some s) => (f.months.map str_to_lower).contains (str_to_lower s)
          | _ => false))
      | _ => .error ()

/-- Sum of a numeric column over the given row indices. -/
def sum_at (vals : List ℚ) (idxs : List Nat) : ℚ :=
  (idxs.map (fun i => vals.getD i 0)).sum

/-- `Series.mean` over the given row indices. -/
def mean_at (vals : List ℚ) (idxs : List Nat) : ℚ :=
  sum_at vals idxs / idxs.length

/-- `Series.idxmax` accumulator: first index attaining the maximum wins
(updates only on strictly greater values). -/
def idxmax_go (vals : List ℚ) : List Nat → Nat → ℚ → Nat
  | [], best, _ => best
  | i :: rest, best, bestV =>
    if bestV < vals.getD i 0 then idxmax_go vals rest i (vals.getD i 0)
    else idxmax_go vals rest best bestV

/-- `Series.idxmin` accumulator: first index attaining the minimum wins. -/
def idxmin_go (vals : List ℚ) : List Nat → Nat → ℚ → Nat
  | [], best, _ => best
  | i :: rest, best, bestV =>
    if vals.getD i 0 < bestV then idxmin_go vals rest i (vals.getD i 0)
    else idxmin_go vals rest best bestV

/-- Python `min(l)` for a nonempty list (0 on the guarded-out empty list). -/
def list_min : List ℚ → ℚ
  | [] => 0
  | x :: xs => xs.foldl min x

/-- Python `max(l)` for a nonempty list. -/
def list_max : List ℚ → ℚ
  | [] => 0
  | x :: xs => xs.foldl max x

/-- One comparison result (`_compare_entities` data item). -/
structure CompItem where
  entity : CellVal
  metric : String
  value : ℚ
  row_index : Nat
  count : Nat
deriving DecidableEq

/-- One maximum/minimum result.  The entity fields mirror the optional
`entity_info` keys: the outer `Option` is key presence (a role column
exists), the inner one nullability of the looked-up cell. -/
structure MaxMinItem where
  metric : String
  value : ℚ
  row_index : Nat
  entity_state : Option (Option CellVal)
  entity_year : Option (Option CellVal)
deriving DecidableEq

/-- One average/sum result. -/
structure AggItem where
  metric : String
  value : ℚ
  count : Nat
  row_indices : List Nat
deriving DecidableEq

/-- One per-year trend result. -/
structure TrendItem where
  year : Int
  metric : String
  value : ℚ
  row_indices : List Nat
deriving DecidableEq

/-- The count result. -/
structure CountItem where
  count : Nat
  row_indices : List Nat
deriving DecidableEq

/-- One general/fallback summary result. -/
structure GeneralItem where
  metric : String
  mean : ℚ
  min_val : ℚ
  max_val : ℚ
  count : Nat
  row_indices : List Nat
deriving DecidableEq

/-- A result bundle: the `type` tag together with its data list. -/
inductive ResultBundle where
  | comparison (data : List CompItem)
  | maximum (data : List MaxMinItem)
  | minimum (data : List MaxMinItem)
  | average (data : List AggItem)
  | sum (data : List AggItem)
  | trend (data : List TrendItem)
  | count (data : List CountItem)
  | general (data : List GeneralItem)
deriving DecidableEq

/-- Whether the bundle's data sequence is empty. -/
def ResultBundle.dataEmpty : ResultBundle → Bool
  | .comparison d => d.isEmpty
  | .maximum d => d.isEmpty
  | .minimum d => d.isEmpty
  | .average d => d.isEmpty
  | .sum d => d.isEmpty
  | .trend d => d.isEmpty
  | .count d => d.isEmpty
  | .general d => d.isEmpty

/-- The per-state loop of `_compare_entities`.  `state_data[metric].mean()`
raises on a missing or non-numeric metric column, but only when some state
has matching rows. -/
def compare_go (t : Table) (idxs : List Nat) (sc metric : String) :
    List CellVal → Except Unit (List CompItem)
  | [] => .ok []
  | st :: rest =>
    match idxs.filter (fun i => isin_cell (t.lookup i sc) [st]) with
    | [] => compare_go t idxs sc metric rest
    | i0 :: more =>
      match t.colData metric with
      | some (.numeric vals) =>
        (compare_go t idxs sc metric rest).map (fun tail =>
          ⟨st, metric, mean_at vals (i0 :: more), i0, (i0 :: more).length⟩ :: tail)
      | _ => .error ()

/-- `_compare_entities`. -/
def compare_entities (t : Table) (idxs : List Nat) (f : Filters) (metrics : List String) :
    Except Unit (List CompItem) :=
  match find_state_columns t, metrics with
  | [], _ => .ok []
  | _, [] => .ok []
  | sc :: _, metric :: _ =>
    if metric.isEmpty then .ok []  -- `if not metric` on the empty string
    else if f.states.isEmpty then .ok []
    else compare_go t idxs sc metric f.states

/-- `_find_maximum`: first metric over the filtered rows; `idxmax` raises on
a text column. -/
def find_maximum (t : Table) (idxs : List Nat) (metrics : List String) :
    Except Unit (List MaxMinItem) :=
  match metrics, idxs with
  | [], _ => .ok []
  | _, [] => .ok []
  | metric :: _, i0 :: rest =>
    match t.colData metric with
    | none => .ok []
    | some (.text _) => .error ()
    | some (.numeric vals) =>
      let maxIdx := idxmax_go vals rest i0 (vals.getD i0 0)
      .ok [⟨metric, vals.getD maxIdx 0, maxIdx,
        (find_state_columns t).head?.map (fun sc => (t.lookup maxIdx sc).join),
        (find_year_columns t).head?.map (fun yc => (t.lookup maxIdx yc).join)⟩]

/-- `_find_minimum`. -/
def find_minimum (t : Table) (idxs : List Nat) (metrics : List String) :
    Except Unit (List MaxMinItem) :=
  match metrics, idxs with
  | [], _ => .ok []
  | _, [] => .ok []
  | metric :: _, i0 :: rest =>
    match t.colData metric with
    | none => .ok []
    | some (.text _) => .error ()
    | some (.numeric vals) =>
      let minIdx := idxmin_go vals rest i0 (vals.getD i0 0)
      .ok [⟨metric, vals.getD minIdx 0, minIdx,
        (find_state_columns t).head?.map (fun sc => (t.lookup minIdx sc).join),
        (find_year_columns t).head?.map (fun yc => (t.lookup minIdx yc).join)⟩]

/-- `_calculate_average`: one item per numeric candidate metric, carrying
the mean, the record count and every contributing row index. -/
def calculate_average (t : Table) (idxs : List Nat) (metrics : List String) : List AggItem :=
  if metrics.isEmpty || idxs.isEmpty then [] else
  metrics.filterMap (fun metric =>
    match t.colData metric with
    | some (.numeric vals) => some ⟨metric, mean_at vals idxs, idxs.length, idxs⟩
    | _ => none)

/-- `_calculate_sum`. -/
def calculate_sum (t : Table) (idxs : List Nat) (metrics : List String) : List AggItem :=
  if metrics.isEmpty || idxs.isEmpty then [] else
  metrics.filterMap (fun metric =>
    match t.colData metric with
    | some (.numeric vals) => some ⟨metric, sum_at vals idxs, idxs.length, idxs⟩
    | _ => none)

/-- Python `int()` on a rational (truncation toward zero). -/
def rat_trunc (q : ℚ) : Int := if q < 0 then ⌈q⌉ else ⌊q⌋

/-- `_analyze_trend`: group the filtered rows by the first year column
(group keys ascending), mean of the first metric per year.  Group-by
aggregation of a text metric and `int()` on text group keys raise. -/
def analyze_trend (t : Table) (idxs : List Nat) (metrics : List String) :
    Except Unit (List TrendItem) :=
  match find_year_columns t, metrics, idxs with
  | [], _, _ => .ok []
  | _, [], _ => .ok []
  | _, _, [] => .ok []
  | yc :: _, metric :: _, _ :: _ =>
    match t.colData metric with
    | none => .ok []
    | some (.text _) => .error ()
    | some (.numeric mvals) =>
      match t.colData yc with
      | some (.numeric yvals) =>
        .ok ((sorted_dedup (idxs.map (fun i => yvals.getD i 0))).map (fun y =>
          let grp := idxs.filter (fun i => yvals.getD i 0 == y)
          ⟨rat_trunc y, metric, mean_at mvals grp, grp⟩))
      | _ => .error ()

/-- `_count_records`: always emits one item, even on an empty table. -/
def count_records (idxs : List Nat) : List CountItem :=
  [⟨idxs.length, idxs⟩]

/-- `_general_query`: summary statistics of every numeric candidate metric. -/
def general_query (t : Table) (idxs : List Nat) (metrics : List String) : List GeneralItem :=
  if idxs.isEmpty then [] else
  metrics.filterMap (fun metric =>
    match t.colData metric with
    | some (.numeric vals) =>
      let cells := idxs.map (fun i => vals.getD i 0)
      some ⟨metric, mean_at vals idxs, list_min cells, list_max cells, idxs.length, idxs⟩
    | _ => none)

/-- `DataAnalyzer.execute_query`: apply the filters, then dispatch on the
intent (the `if`/`elif` chain of the source, everything else falling back
to the general query). -/
def execute_query (t : Table) (q : ParsedQuery) : Except Unit ResultBundle := do
  let idxs ← apply_filters t q.filters
  if q.intent = "compare" then (compare_entities t idxs q.filters q.metrics).map .comparison
  else if q.intent = "maximum" then (find_maximum t idxs q.metrics).map .maximum
  else if q.intent = "minimum" then (find_minimum t idxs q.metrics).map .minimum
  else if q.intent = "average" then .ok (.average (calculate_average t idxs q.metrics))
  else if q.intent = "sum" then .ok (.sum (calculate_sum t idxs q.metrics))
  else if q.intent = "trend" then (analyze_trend t idxs q.metrics).map .trend
  else if q.intent = "count" then .ok (.count (count_records idxs))
  else .ok (.general (general_query t idxs q.metrics))

/-! ## AnswerGenerator (answer_generator.py)

Prose templates are reproduced structurally; the decimal rendering of
floats (`_format_value`'s `:.2f`, which rounds half-to-even on binary
floats) is abstracted by rational rounding, and the source's bullet glyphs
are normalized to ASCII.  Citation lists, the fixed insufficient-data
message and the count answer are exact. -/

/-- The fixed insufficient-data message returned whenever a bundle carries
no data. -/
def insufficient_msg : String :=
  "I couldn\x27t find relevant data to answer this question. Please check if the data contains the required information."

structure Answer where
  answer : String
  citations : List String
deriving DecidableEq

/-- Digit grouping by thousands on a reversed digit list. -/
def group_rev : List Char → List Char
  | a :: b :: c :: d :: rest => a :: b :: c :: ',' :: group_rev (d :: rest)
  | l => l

/-- Fixed-point rendering of `q` with `digits` decimal places. -/
def fixed_point_str (commas : Bool) (digits : Nat) (q : ℚ) : String :=
  let p : Int := (10 : Int) ^ digits
  let n : Int := round (q * (p : ℚ))
  let ip : Nat := n.natAbs / p.toNat
  let fp : Nat := n.natAbs % p.toNat
  let ipStr :=
    if commas then String.mk (group_rev (toString ip).data.reverse).reverse
    else toString ip
  let fpStr := String.mk (List.replicate (digits - (toString fp).length) '0') ++ toString fp
  (if n < 0 then "-" else "") ++ ipStr ++ "." ++ fpStr

/-- `_format_value`: thousands separators from 1000 up, two decimals. -/
def format_value (q : ℚ) : String :=
  if 1000 ≤ q then fixed_point_str true 2 q else fixed_point_str false 2 q

/-- `_format_metric_name`: underscores to spaces, then Python `str.title`. -/
def format_metric_name (metric : String) : String :=
  let spaced := metric.data.map (fun c => if c = '_' then ' ' else c)
  let rec title : Bool → List Char → List Char
    | _, [] => []
    | prevAlpha, c :: rest =>
      (if c.isAlpha then (if prevAlpha then c.toLower else c.toUpper) else c)
        :: title c.isAlpha rest
  String.mk (title false spaced)

/-- `_get_unit`: keyword sniffing on the metric name. -/
def get_unit (metric : String) : String :=
  let m := str_to_lower metric
  if str_contains m "mm" || str_contains m "millimeter" then "mm"
  else if str_contains m "cm" || str_contains m "centimeter" then "cm"
  else if str_contains m "inch" then "inches"
  else if str_contains m "temp" || str_contains m "celsius" then "°C"
  else if str_contains m "fahrenheit" then "°F"
  else ""

/-- `_create_citation`: cell value plus up to three non-null context pairs
from the same row; a failed lookup degrades to the position-only form. -/
def create_citation (t : Table) (row_idx : Nat) (column : String) : String :=
  match t.lookup row_idx column with
  | some cell =>
    let vstr := match cell with
      | some v => cell_val_str v
      | none => "nan"
    let ctx := (t.cols.filterMap (fun c =>
      if c.name = column then none else
      match c.data.cell? row_idx with
      | some (some v) => some (c.name ++ "=" ++ cell_val_str v)
      | _ => none)).take 3
    let base := "Row " ++ toString row_idx ++ ", Column " ++ column ++ ": " ++ vstr
    if ctx.isEmpty then base
    else base ++ " (Context: " ++ String.intercalate ", " ctx ++ ")"
  | none => "Row " ++ toString row_idx ++ ", Column " ++ column

/-- Python `'s' if count != 1 else ''` / `'s' if count > 1 else ''`. -/
def plural_s (n : Nat) : String := if n ≠ 1 then "s" else ""

/-- The truncation marker appended after the first three citations of an
aggregation with more than three contributing rows. -/
def more_rows_msg (n : Nat) : String := "... and " ++ toString n ++ " more rows"

/-- First index of the maximal value, `values.index(max(values))`. -/
def idx_of_max (values : List ℚ) : Nat := values.indexOf (list_max values)

/-- First index of the minimal value. -/
def idx_of_min (values : List ℚ) : Nat := values.indexOf (list_min values)

/-- `_generate_comparison_answer`. -/
def generate_comparison_answer (t : Table) (data : List CompItem) : Answer :=
  let parts := data.map (fun item =>
    "* **" ++ cell_val_str item.entity ++ "**: " ++ format_value item.value ++ " "
      ++ format_metric_name item.metric ++ " (averaged from " ++ toString item.count
      ++ " record" ++ (if 1 < item.count then "s" else "") ++ ")")
  let citations := data.map (fun item => create_citation t item.row_index item.metric)
  let values := data.map (·.value)
  let summary :=
    if 2 ≤ data.length then
      let maxItem := data.getD (idx_of_max values) ⟨.str "", "", 0, 0, 0⟩
      let minItem := data.getD (idx_of_min values) ⟨.str "", "", 0, 0, 0⟩
      "\n**" ++ cell_val_str maxItem.entity ++ "** had the highest value ("
        ++ format_value maxItem.value ++ " " ++ format_metric_name maxItem.metric
        ++ "), while **" ++ cell_val_str minItem.entity ++ "** had the lowest ("
        ++ format_value minItem.value ++ " " ++ format_metric_name minItem.metric ++ ")."
    else ""
  ⟨"Based on the data analysis:\n\n" ++ String.join parts ++ summary, citations⟩

/-- Shared template of `_generate_maximum_answer`/`_generate_minimum_answer`;
`word` is "highest"/"lowest", `plain` "maximum"/"minimum". -/
def extremum_prose (word plain : String) (item : MaxMinItem) : String :=
  match item.entity_state, item.entity_year with
  | some st, some yr =>
    "The " ++ word ++ " " ++ format_metric_name item.metric ++ " was recorded in **"
      ++ (st.map cell_val_str).getD "nan" ++ "** during **"
      ++ (yr.map cell_val_str).getD "nan" ++ "** with a value of **"
      ++ format_value item.value ++ " " ++ get_unit item.metric ++ "**."
  | some st, none =>
    "The " ++ word ++ " " ++ format_metric_name item.metric ++ " was recorded in **"
      ++ (st.map cell_val_str).getD "nan" ++ "** with a value of **"
      ++ format_value item.value ++ " " ++ get_unit item.metric ++ "**."
  | none, some yr =>
    "The " ++ word ++ " " ++ format_metric_name item.metric ++ " was recorded in **"
      ++ (yr.map cell_val_str).getD "nan" ++ "** with a value of **"
      ++ format_value item.value ++ " " ++ get_unit item.metric ++ "**."
  | none, none =>
    "The " ++ plain ++ " " ++ format_metric_name item.metric ++ " value found is **"
      ++ format_value item.value ++ " " ++ get_unit item.metric ++ "**."

/-- `_generate_maximum_answer`: one citation for the extremal row. -/
def generate_maximum_answer (t : Table) (data : List MaxMinItem) : Answer :=
  match data with
  | [] => ⟨"", []⟩  -- unreachable: the caller dispatches only on nonempty data
  | item :: _ =>
    ⟨extremum_prose "highest" "maximum" item,
     [create_citation t item.row_index item.metric]⟩

/-- `_generate_minimum_answer`. -/
def generate_minimum_answer (t : Table) (data : List MaxMinItem) : Answer :=
  match data with
  | [] => ⟨"", []⟩
  | item :: _ =>
    ⟨extremum_prose "lowest" "minimum" item,
     [create_citation t item.row_index item.metric]⟩

/-- Citations of one average/sum item: the first three contributing rows,
then the `... and N more rows` marker when more than three contributed. -/
def agg_item_citations (t : Table) (item : AggItem) : List String :=
  (item.row_indices.take 3).map (fun i => create_citation t i item.metric) ++
    (if 3 < item.row_indices.length then [more_rows_msg (item.row_indices.length - 3)] else [])

/-- `_generate_average_answer`. -/
def generate_average_answer (t : Table) (data : List AggItem) : Answer :=
  ⟨String.intercalate " " (data.map (fun item =>
      "The average " ++ format_metric_name item.metric ++ " is **"
        ++ format_value item.value ++ " " ++ get_unit item.metric
        ++ "** (calculated from " ++ toString item.count ++ " record"
        ++ (if 1 < item.count then "s" else "") ++ ").")),
   data.flatMap (agg_item_citations t)⟩

/-- `_generate_sum_answer`. -/
def generate_sum_answer (t : Table) (data : List AggItem) : Answer :=
  ⟨String.intercalate " " (data.map (fun item =>
      "The total " ++ format_metric_name item.metric ++ " is **"
        ++ format_value item.value ++ " " ++ get_unit item.metric
        ++ "** (summed from " ++ toString item.count ++ " record"
        ++ (if 1 < item.count then "s" else "") ++ ").")),
   data.flatMap (agg_item_citations t)⟩

/-- Stable insertion of a trend item into a year-sorted list. -/
def insert_by_year (x : TrendItem) : List TrendItem → List TrendItem
  | [] => [x]
  | y :: ys => if x.year < y.year then x :: y :: ys else y :: insert_by_year x ys

/-- Python `sorted(data, key=year)` (stable). -/
def sort_by_year : List TrendItem → List TrendItem
  | [] => []
  | x :: xs => insert_by_year x (sort_by_year xs)

/-- `_generate_trend_answer`: one citation per year (its first contributing
row); overall percent change, zero when the first value is zero. -/
def generate_trend_answer (t : Table) (data : List TrendItem) : Answer :=
  let sorted := sort_by_year data
  let parts := sorted.map (fun item =>
    "* **" ++ toString item.year ++ "**: " ++ format_value item.value ++ " "
      ++ get_unit item.metric ++ "\n")
  let citations := sorted.filterMap (fun item =>
    item.row_indices.head?.map (fun i => create_citation t i item.metric))
  let summary :=
    if 2 ≤ sorted.length then
      let firstV := (sorted.head?.map (·.value)).getD 0
      let lastV := (sorted.getLast?.map (·.value)).getD 0
      let change := lastV - firstV
      let pct := if firstV = 0 then 0 else change / firstV * 100
      "\n**Overall Trend**: The "
        ++ format_metric_name ((sorted.head?.map (·.metric)).getD "")
        ++ " " ++ (if 0 < change then "increased" else "decreased")
        ++ " by " ++ fixed_point_str false 1 |pct| ++ "% over this period."
    else ""
  ⟨"**Rainfall Trend Analysis:**\n\n" ++ String.join parts ++ summary, citations⟩

/-- The count answer prose. -/
def count_msg (n : Nat) : String :=
  "There are **" ++ toString n ++ "** record" ++ plural_s n ++ " matching your query."

/-- `_generate_count_answer`: surfaces the record count of the first item
and returns an empty citation list. -/
def generate_count_answer (data : List CountItem) : Answer :=
  match data with
  | [] => ⟨"", []⟩
  | item :: _ => ⟨count_msg item.count, []⟩

/-- `_generate_general_answer`: first three contributing rows of each item
are cited, with no truncation marker. -/
def generate_general_answer (t : Table) (data : List GeneralItem) : Answer :=
  ⟨"Based on the available data:\n\n" ++ String.join (data.map (fun item =>
      "**" ++ format_metric_name item.metric ++ "**:\n* Mean: "
        ++ format_value item.mean ++ " " ++ get_unit item.metric ++ "\n* Minimum: "
        ++ format_value item.min_val ++ " " ++ get_unit item.metric ++ "\n* Maximum: "
        ++ format_value item.max_val ++ " " ++ get_unit item.metric
        ++ "\n* Total Records: " ++ toString item.count ++ "\n\n")),
   data.flatMap (fun item =>
     (item.row_indices.take 3).map (fun i => create_citation t i item.metric))⟩

/-- `AnswerGenerator.generate_answer`: the empty-data guard, then dispatch
on the result kind. -/
def generate_answer (question : String) (b : ResultBundle) (t : Table) : Answer :=
  if b.dataEmpty then ⟨insufficient_msg, []⟩
  else match b with
    | .comparison data => generate_comparison_answer t data
    | .maximum data => generate_maximum_answer t data
    | .minimum data => generate_minimum_answer t data
    | .average data => generate_average_answer t data
    | .sum data => generate_sum_answer t data
    | .trend data => generate_trend_answer t data
    | .count data => generate_count_answer data
    | .general data => generate_general_answer t data

/-! ## Helper lemmas -/

theorem find?_name_of_mem (cols : List Col) (c : Col)
    (hnd : (cols.map (·.name)).Nodup) (hc : c ∈ cols) :
    cols.find? (fun col => col.name == c.name) = some c := by
  induction cols with
  | nil => cases hc
  | cons d ds ih =>
    rcases List.mem_cons.mp hc with rfl | hc
    · simp [List.find?]
    · have hne : d.name ≠ c.name := by
        intro he
        have hmem : c.name ∈ ds.map (·.name) := List.mem_map_of_mem (·.name) hc
        rw [← he] at hmem
        exact (List.nodup_cons.mp hnd).1 hmem
      simp only [List.find?]
      rw [show (d.name == c.name) = false from beq_eq_false_iff_ne.mpr hne]
      exact ih (List.nodup_cons.mp hnd).2 hc

theorem colData_of_mem (t : Table) (c : Col)
    (hnd : (t.cols.map (·.name)).Nodup) (hc : c ∈ t.cols) :
    t.colData c.name = some c.data := by
  rw [Table.colData, find?_name_of_mem t.cols c hnd hc]
  rfl

theorem idxmax_go_spec (vals : List ℚ) (rest : List Nat) :
    ∀ best : Nat, (best :: rest).Pairwise (· < ·) →
      idxmax_go vals rest best (vals.getD best 0) ∈ best :: rest ∧
      (∀ i ∈ best :: rest,
        vals.getD i 0 ≤ vals.getD (idxmax_go vals rest best (vals.getD best 0)) 0) ∧
      (∀ i ∈ best :: rest,
        vals.getD i 0 = vals.getD (idxmax_go vals rest best (vals.getD best 0)) 0 →
        idxmax_go vals rest best (vals.getD best 0) ≤ i) := by
  induction rest with
  | nil =>
    intro best _
    refine ⟨by simp [idxmax_go], ?_, ?_⟩ <;> simp [idxmax_go]
  | cons j rest ih =>
    intro best h
    rcases List.pairwise_cons.mp h with ⟨hb, hj⟩
    have hbr : (best :: rest).Pairwise (· < ·) :=
      List.pairwise_cons.mpr ⟨fun z hz => hb z (List.mem_cons_of_mem _ hz),
        (List.pairwise_cons.mp hj).2⟩
    by_cases hlt : vals.getD best 0 < vals.getD j 0
    · rcases ih j hj with ⟨hm, hub, hfirst⟩
      have hred : idxmax_go vals (j :: rest) best (vals.getD best 0)
          = idxmax_go vals rest j (vals.getD j 0) := by
        show (if vals.getD best 0 < vals.getD j 0 then idxmax_go vals rest j (vals.getD j 0)
          else idxmax_go vals rest best (vals.getD best 0)) = _
        rw [if_pos hlt]
      rw [hred]
      have hjr := hub j (List.mem_cons_self _ _)
      refine ⟨List.mem_cons_of_mem _ hm, ?_, ?_⟩
      · intro i hi
        rcases List.mem_cons.mp hi with rfl | hi
        · exact le_of_lt (lt_of_lt_of_le hlt hjr)
        · exact hub i hi
      · intro i hi he
        rcases List.mem_cons.mp hi with rfl | hi
        · exact absurd he (ne_of_lt (lt_of_lt_of_le hlt hjr))
        · exact hfirst i hi he
    · rcases ih best hbr with ⟨hm, hub, hfirst⟩
      have hred : idxmax_go vals (j :: rest) best (vals.getD best 0)
          = idxmax_go vals rest best (vals.getD best 0) := by
        show (if vals.getD best 0 < vals.getD j 0 then idxmax_go vals rest j (vals.getD j 0)
          else idxmax_go vals rest best (vals.getD best 0)) = _
        rw [if_neg hlt]
      rw [hred]
      have hjle : vals.getD j 0 ≤ vals.getD best 0 := not_lt.mp hlt
      have hble := hub best (List.mem_cons_self _ _)
      refine ⟨?_, ?_, ?_⟩
      · rcases List.mem_cons.mp hm with h1 | h1
        · rw [h1]; exact List.mem_cons_self _ _
        · exact List.mem_cons_of_mem _ (List.mem_cons_of_mem _ h1)
      · intro i hi
        rcases List.mem_cons.mp hi with rfl | hi
        · exact hble
        · rcases List.mem_cons.mp hi with rfl | hi
          · exact le_trans hjle hble
          · exact hub i (List.mem_cons_of_mem _ hi)
      · intro i hi he
        rcases List.mem_cons.mp hi with rfl | hi
        · exact hfirst i (List.mem_cons_self _ _) he
        · rcases List.mem_cons.mp hi with rfl | hi
          · have heq : vals.getD best 0
                = vals.getD (idxmax_go vals rest best (vals.getD best 0)) 0 :=
              le_antisymm hble (he ▸ hjle)
            exact le_of_lt (lt_of_le_of_lt
              (hfirst best (List.mem_cons_self _ _) heq) (hb i (List.mem_cons_self _ _)))
          · exact hfirst i (List.mem_cons_of_mem _ hi) he

theorem idxmin_go_spec (vals : List ℚ) (rest : List Nat) :
    ∀ best : Nat, (best :: rest).Pairwise (· < ·) →
      idxmin_go vals rest best (vals.getD best 0) ∈ best :: rest ∧
      (∀ i ∈ best :: rest,
        vals.getD (idxmin_go vals rest best (vals.getD best 0)) 0 ≤ vals.getD i 0) ∧
      (∀ i ∈ best :: rest,
        vals.getD i 0 = vals.getD (idxmin_go vals rest best (vals.getD best 0)) 0 →
        idxmin_go vals rest best (vals.getD best 0) ≤ i) := by
  induction rest with
  | nil =>
    intro best _
    refine ⟨by simp [idxmin_go], ?_, ?_⟩ <;> simp [idxmin_go]
  | cons j rest ih =>
    intro best h
    rcases List.pairwise_cons.mp h with ⟨hb, hj⟩
    have hbr : (best :: rest).Pairwise (· < ·) :=
      List.pairwise_cons.mpr ⟨fun z hz => hb z (List.mem_cons_of_mem _ hz),
        (List.pairwise_cons.mp hj).2⟩
    by_cases hlt : vals.getD j 0 < vals.getD best 0
    · rcases ih j hj with ⟨hm, hlb, hfirst⟩
      have hred : idxmin_go vals (j :: rest) best (vals.getD best 0)
          = idxmin_go vals rest j (vals.getD j 0) := by
        show (if vals.getD j 0 < vals.getD best 0 then idxmin_go vals rest j (vals.getD j 0)
          else idxmin_go vals rest best (vals.getD best 0)) = _
        rw [if_pos hlt]
      rw [hred]
      have hjr := hlb j (List.mem_cons_self _ _)
      refine ⟨List.mem_cons_of_mem _ hm, ?_, ?_⟩
      · intro i hi
        rcases List.mem_cons.mp hi with rfl | hi
        · exact le_of_lt (lt_of_le_of_lt hjr hlt)
        · exact hlb i hi
      · intro i hi he
        rcases List.mem_cons.mp hi with rfl | hi
        · exact absurd he.symm (ne_of_lt (lt_of_le_of_lt hjr hlt))
        · exact hfirst i hi he
    · rcases ih best hbr with ⟨hm, hlb, hfirst⟩
      have hred : idxmin_go vals (j :: rest) best (vals.getD best 0)
          = idxmin_go vals rest best (vals.getD best 0) := by
        show (if vals.getD j 0 < vals.getD best 0 then idxmin_go vals rest j (vals.getD j 0)
          else idxmin_go vals rest best (vals.getD best 0)) = _
        rw [if_neg hlt]
      rw [hred]
      have hjge : vals.getD best 0 ≤ vals.getD j 0 := not_lt.mp hlt
      have hble := hlb best (List.mem_cons_self _ _)
      refine ⟨?_, ?_, ?_⟩
      · rcases List.mem_cons.mp hm with h1 | h1
        · rw [h1]; exact List.mem_cons_self _ _
        · exact List.mem_cons_of_mem _ (List.mem_cons_of_mem _ h1)
      · intro i hi
        rcases List.mem_cons.mp hi with rfl | hi
        · exact hble
        · rcases List.mem_cons.mp hi with rfl | hi
          · exact le_trans hble hjge
          · exact hlb i (List.mem_cons_of_mem _ hi)
      · intro i hi he
        rcases List.mem_cons.mp hi with rfl | hi
        · exact hfirst i (List.mem_cons_self _ _) he
        · rcases List.mem_cons.mp hi with rfl | hi
          · have heq : vals.getD best 0
                = vals.getD (idxmin_go vals rest best (vals.getD best 0)) 0 :=
              le_antisymm (hjge.trans he.le) hble
            exact le_of_lt (lt_of_le_of_lt
              (hfirst best (List.mem_cons_self _ _) heq) (hb i (List.mem_cons_self _ _)))
          · exact hfirst i (List.mem_cons_of_mem _ hi) he

theorem foldl_min_spec (xs : List ℚ) : ∀ a : ℚ,
    (xs.foldl min a = a ∨ xs.foldl min a ∈ xs) ∧
    xs.foldl min a ≤ a ∧ ∀ x ∈ xs, xs.foldl min a ≤ x := by
  induction xs with
  | nil => intro a; exact ⟨Or.inl rfl, le_refl a, by simp⟩
  | cons y ys ih =>
    intro a
    rcases ih (min a y) with ⟨hmem, hle, hub⟩
    rw [List.foldl_cons]
    refine ⟨?_, le_trans hle (min_le_left a y), ?_⟩
    · rcases hmem with he | hm
      · rcases le_total a y with hay | hya
        · exact Or.inl (by rw [he, min_eq_left hay])
        · exact Or.inr (by rw [he, min_eq_right hya]; exact List.mem_cons_self _ _)
      · exact Or.inr (List.mem_cons_of_mem _ hm)
    · intro x hx
      rcases List.mem_cons.mp hx with rfl | hx
      · exact le_trans hle (min_le_right a x)
      · exact hub x hx

theorem foldl_max_spec (xs : List ℚ) : ∀ a : ℚ,
    (xs.foldl max a = a ∨ xs.foldl max a ∈ xs) ∧
    a ≤ xs.foldl max a ∧ ∀ x ∈ xs, x ≤ xs.foldl max a := by
  induction xs with
  | nil => intro a; exact ⟨Or.inl rfl, le_refl a, by simp⟩
  | cons y ys ih =>
    intro a
    rcases ih (max a y) with ⟨hmem, hle, hub⟩
    rw [List.foldl_cons]
    refine ⟨?_, le_trans (le_max_left a y) hle, ?_⟩
    · rcases hmem with he | hm
      · rcases le_total a y with hay | hya
        · exact Or.inr (by rw [he, max_eq_right hay]; exact List.mem_cons_self _ _)
        · exact Or.inl (by rw [he, max_eq_left hya])
      · exact Or.inr (List.mem_cons_of_mem _ hm)
    · intro x hx
      rcases List.mem_cons.mp hx with rfl | hx
      · exact le_trans (le_max_right a x) hle
      · exact hub x hx

theorem list_min_spec (l : List ℚ) (hl : l ≠ []) :
    list_min l ∈ l ∧ ∀ x ∈ l, list_min l ≤ x := by
  match l with
  | [] => exact absurd rfl hl
  | x :: xs =>
    rcases foldl_min_spec xs x with ⟨hmem, hle, hub⟩
    rw [list_min]
    refine ⟨?_, ?_⟩
    · rcases hmem with he | hm
      · rw [he]; exact List.mem_cons_self _ _
      · exact List.mem_cons_of_mem _ hm
    · intro y hy
      rcases List.mem_cons.mp hy with rfl | hy
      · exact hle
      · exact hub y hy

theorem list_max_spec (l : List ℚ) (hl : l ≠ []) :
    list_max l ∈ l ∧ ∀ x ∈ l, x ≤ list_max l := by
  match l with
  | [] => exact absurd rfl hl
  | x :: xs =>
    rcases foldl_max_spec xs x with ⟨hmem, hle, hub⟩
    rw [list_max]
    refine ⟨?_, ?_⟩
    · rcases hmem with he | hm
      · rw [he]; exact List.mem_cons_self _ _
      · exact List.mem_cons_of_mem _ hm
    · intro y hy
      rcases List.mem_cons.mp hy with rfl | hy
      · exact hle
      · exact hub y hy

/-- With an empty filtered table every comparison state is skipped. -/
theorem compare_go_nil_idxs (t : Table) (sc metric : String) (states : List CellVal) :
    compare_go t [] sc metric states = .ok [] := by
  induction states with
  | nil => rfl
  | cons st rest ih => simpa [compare_go] using ih

/-- With a numeric metric column the comparison loop never raises. -/
theorem compare_go_ok (t : Table) (idxs : List Nat) (sc metric : String)
    (vals : List ℚ) (hcol : t.colData metric = some (.numeric vals)) :
    ∀ states : List CellVal, ∃ items, compare_go t idxs sc metric states = .ok items := by
  intro states
  induction states with
  | nil => exact ⟨[], rfl⟩
  | cons st rest ih =>
    rcases ih with ⟨items, hitems⟩
    rcases hfil : idxs.filter (fun i => isin_cell (t.lookup i sc) [st]) with _ | ⟨i0, more⟩
    · exact ⟨items, by rw [compare_go, hfil, hitems]⟩
    · refine ⟨⟨st, metric, mean_at vals (i0 :: more), i0, (i0 :: more).length⟩ :: items, ?_⟩
      rw [compare_go, hfil, hcol, hitems]
      rfl

/-- `l.get? i` succeeds below the length and yields the default-read value. -/
theorem get?_eq_some_getD (l : List ℚ) : ∀ i : Nat, i < l.length →
    l.get? i = some (l.getD i 0) := by
  induction l with
  | nil => intro i h; simp at h
  | cons x xs ih =>
    intro i h
    cases i with
    | zero => rfl
    | succ n => exact ih n (Nat.lt_of_succ_lt_succ h)

/-! ## Claims -/

/-- C2: for every filtered table and candidate metric list, each `sum`
ResultItem's value is the arithmetic sum of that metric at exactly the row
indices returned as contributing indices, and each `average` ResultItem's
value is that sum divided by the returned count, the count being the number
of contributing indices. -/
theorem c2_aggregation_identity (t : Table) (idxs : List Nat) (metrics : List String) :
    (∀ item ∈ calculate_sum t idxs metrics,
      item.row_indices = idxs ∧ item.count = item.row_indices.length ∧
      item.value = (item.row_indices.map (fun i => t.num_at item.metric i)).sum) ∧
    (∀ item ∈ calculate_average t idxs metrics,
      item.row_indices = idxs ∧ item.count = item.row_indices.length ∧ item.count ≠ 0 ∧
      item.value = (item.row_indices.map (fun i => t.num_at item.metric i)).sum / item.count) := by
  constructor
  · intro item hmem
    rw [calculate_sum] at hmem
    by_cases hg : metrics.isEmpty || idxs.isEmpty
    · rw [if_pos hg] at hmem; cases hmem
    · rw [if_neg hg] at hmem
      rcases List.mem_filterMap.mp hmem with ⟨m, _, heq⟩
      rcases hcol : t.colData m with _ | d
      · rw [hcol] at heq; cases heq
      · cases d with
        | text vals => rw [hcol] at heq; cases heq
        | numeric vals =>
          rw [hcol] at heq
          injection heq with heq
          subst heq
          exact ⟨rfl, rfl, by simp [Table.num_at, hcol, sum_at]⟩
  · intro item hmem
    rw [calculate_average] at hmem
    by_cases hg : metrics.isEmpty || idxs.isEmpty
    · rw [if_pos hg] at hmem; cases hmem
    · rw [if_neg hg] at hmem
      have hne : idxs ≠ [] := by
        intro h; subst h; simp at hg
      rcases List.mem_filterMap.mp hmem with ⟨m, _, heq⟩
      rcases hcol : t.colData m with _ | d
      · rw [hcol] at heq; cases heq
      · cases d with
        | text vals => rw [hcol] at heq; cases heq
        | numeric vals =>
          rw [hcol] at heq
          injection heq with heq
          subst heq
          exact ⟨rfl, rfl, (List.length_pos.mpr hne).ne',
            by simp [Table.num_at, hcol, mean_at, sum_at]⟩

/-- The table of the C2 witness. -/
def tbl_w2 : Table := ⟨[⟨"rain", .numeric [10, 20]⟩], 2⟩

/-- The sum item of the C2 witness. -/
def item_w2 : AggItem := ⟨"rain", 30, 2, [0, 1]⟩

/-- The average item of the C2 witness. -/
def item_w2a : AggItem := ⟨"rain", 15, 2, [0, 1]⟩

theorem c2_aggregation_identity_witness :
    (item_w2 ∈ calculate_sum tbl_w2 [0, 1] ["rain"] ∧
      item_w2.row_indices = [0, 1] ∧ item_w2.count = item_w2.row_indices.length ∧
      item_w2.value = (item_w2.row_indices.map (fun i => tbl_w2.num_at item_w2.metric i)).sum) ∧
    (item_w2a ∈ calculate_average tbl_w2 [0, 1] ["rain"] ∧
      item_w2a.count ≠ 0 ∧
      item_w2a.value
        = (item_w2a.row_indices.map (fun i => tbl_w2.num_at item_w2a.metric i)).sum
            / item_w2a.count) := by
  have hsum : calculate_sum tbl_w2 [0, 1] ["rain"] = [item_w2] := by
    simp [calculate_sum, tbl_w2, item_w2, Table.colData, List.find?, sum_at]
    norm_num
  have havg : calculate_average tbl_w2 [0, 1] ["rain"] = [item_w2a] := by
    simp [calculate_average, tbl_w2, item_w2a, Table.colData, List.find?, mean_at, sum_at]
    norm_num
  have hm1 : item_w2 ∈ calculate_sum tbl_w2 [0, 1] ["rain"] := by
    rw [hsum]; exact List.mem_cons_self _ _
  have hm2 : item_w2a ∈ calculate_average tbl_w2 [0, 1] ["rain"] := by
    rw [havg]; exact List.mem_cons_self _ _
  have h := c2_aggregation_identity tbl_w2 [0, 1] ["rain"]
  have h1 := h.1 item_w2 hm1
  have h2 := h.2 item_w2a hm2
  exact ⟨⟨hm1, h1⟩, ⟨hm2, h2.2.2.1, h2.2.2.2⟩⟩

/-- C5: on a non-empty filtered table whose first metric resolves to a
numeric column, `maximum` (resp. `minimum`) returns the row holding the
largest (resp. smallest) metric value, the first such row in row order on
duplicates, and the returned row index points into the original unfiltered
snapshot with `cell(row_index, metric)` equal to the returned value. -/
theorem c5_extremum_first_occurrence (t : Table) (idxs : List Nat)
    (metrics rest' : List String) (metric : String) (vals : List ℚ)
    (hm : metrics = metric :: rest')
    (hcol : t.colData metric = some (.numeric vals))
    (hne : idxs ≠ [])
    (hvalid : ∀ i ∈ idxs, i < vals.length)
    (hsorted : idxs.Pairwise (· < ·)) :
    (∃ item, find_maximum t idxs metrics = .ok [item] ∧ item.metric = metric ∧
      item.row_index ∈ idxs ∧
      t.lookup item.row_index metric = some (some (.num item.value)) ∧
      (∀ i ∈ idxs, t.num_at metric i ≤ item.value) ∧
      (∀ i ∈ idxs, t.num_at metric i = item.value → item.row_index ≤ i)) ∧
    (∃ item, find_minimum t idxs metrics = .ok [item] ∧ item.metric = metric ∧
      item.row_index ∈ idxs ∧
      t.lookup item.row_index metric = some (some (.num item.value)) ∧
      (∀ i ∈ idxs, item.value ≤ t.num_at metric i) ∧
      (∀ i ∈ idxs, t.num_at metric i = item.value → item.row_index ≤ i)) := by
  subst hm
  match idxs, hne with
  | i0 :: irest, _ =>
    have hnum : ∀ i, t.num_at metric i = vals.getD i 0 := by
      intro i; simp [Table.num_at, hcol]
    constructor
    · rcases idxmax_go_spec vals irest i0 hsorted with ⟨hmem, hub, hfirst⟩
      refine ⟨⟨metric, vals.getD (idxmax_go vals irest i0 (vals.getD i0 0)) 0,
        idxmax_go vals irest i0 (vals.getD i0 0),
        (find_state_columns t).head?.map
          (fun sc => (t.lookup (idxmax_go vals irest i0 (vals.getD i0 0)) sc).join),
        (find_year_columns t).head?.map
          (fun yc => (t.lookup (idxmax_go vals irest i0 (vals.getD i0 0)) yc).join)⟩,
        ?_, rfl, hmem, ?_, ?_, ?_⟩
      · simp [find_maximum, hcol]
      · have hR := hvalid _ hmem
        rw [Table.lookup, hcol]
        show (ColData.numeric vals).cell? _ = _
        simp only [ColData.cell?]
        rw [get?_eq_some_getD vals _ hR]
        rfl
      · intro i hi; rw [hnum i]; exact hub i hi
      · intro i hi he; rw [hnum i] at he; exact hfirst i hi he
    · rcases idxmin_go_spec vals irest i0 hsorted with ⟨hmem, hlb, hfirst⟩
      refine ⟨⟨metric, vals.getD (idxmin_go vals irest i0 (vals.getD i0 0)) 0,
        idxmin_go vals irest i0 (vals.getD i0 0),
        (find_state_columns t).head?.map
          (fun sc => (t.lookup (idxmin_go vals irest i0 (vals.getD i0 0)) sc).join),
        (find_year_columns t).head?.map
          (fun yc => (t.lookup (idxmin_go vals irest i0 (vals.getD i0 0)) yc).join)⟩,
        ?_, rfl, hmem, ?_, ?_, ?_⟩
      · simp [find_minimum, hcol]
      · have hR := hvalid _ hmem
        rw [Table.lookup, hcol]
        show (ColData.numeric vals).cell? _ = _
        simp only [ColData.cell?]
        rw [get?_eq_some_getD vals _ hR]
        rfl
      · intro i hi; rw [hnum i]; exact hlb i hi
      · intro i hi he; rw [hnum i] at he; exact hfirst i hi he

/-- The table of the C5 witness: the maximal value 9 is duplicated at rows
1 and 2, the minimal value 5 sits at row 0. -/
def tbl_w5 : Table := ⟨[⟨"rainfall_mm", .numeric [5, 9, 9]⟩], 3⟩

theorem c5_extremum_first_occurrence_witness :
    (∃ item, find_maximum tbl_w5 [0, 1, 2] ["rainfall_mm"] = .ok [item] ∧
      item.metric = "rainfall_mm" ∧ item.row_index ∈ [0, 1, 2] ∧
      tbl_w5.lookup item.row_index "rainfall_mm" = some (some (.num item.value)) ∧
      (∀ i ∈ [0, 1, 2], tbl_w5.num_at "rainfall_mm" i ≤ item.value) ∧
      (∀ i ∈ [0, 1, 2], tbl_w5.num_at "rainfall_mm" i = item.value → item.row_index ≤ i)) ∧
    (∃ item, find_minimum tbl_w5 [0, 1, 2] ["rainfall_mm"] = .ok [item] ∧
      item.metric = "rainfall_mm" ∧ item.row_index ∈ [0, 1, 2] ∧
      tbl_w5.lookup item.row_index "rainfall_mm" = some (some (.num item.value)) ∧
      (∀ i ∈ [0, 1, 2], item.value ≤ tbl_w5.num_at "rainfall_mm" i) ∧
      (∀ i ∈ [0, 1, 2], tbl_w5.num_at "rainfall_mm" i = item.value → item.row_index ≤ i)) :=
  c5_extremum_first_occurrence tbl_w5 [0, 1, 2] ["rainfall_mm"] [] "rainfall_mm" [5, 9, 9]
    rfl (by decide) (by decide) (by decide) (by decide)

/-- The trivial table used by parser counterexamples. -/
def tbl_empty : Table := ⟨[], 0⟩

/-- C7 counterexample: on the question "show the data", `parse` returns the
intent "list", which is outside the claim's closed set
{compare, maximum, minimum, average, sum, trend, count} ∪ {query}. -/
theorem c7_closed_set_cex :
    (parse "show the data" tbl_empty).intent = "list" ∧
    "list" ∉ (["compare", "maximum", "minimum", "average", "sum", "trend", "count",
      "query"] : List String) := by
  constructor
  · rfl
  · decide

/-- C7 (amended): `parse` is deterministic and total (it is a function), and
the intent it returns always belongs to the closed set
{compare, maximum, minimum, average, sum, trend, list, count} together with
the generic default "query". -/
theorem c7_parse_closed_set (question : String) (t : Table) :
    (parse question t).intent ∈ (["compare", "maximum", "minimum", "average", "sum",
      "trend", "list", "count", "query"] : List String) := by
  show extract_intent (str_to_lower question) ∈ _
  rw [extract_intent]
  rcases h : intent_patterns.find?
      (fun ip => ip.2.any (fun p => str_contains (str_to_lower question) p)) with _ | ip
  · rw [h]
    decide
  · rw [h]
    have hmem := List.mem_of_find?_eq_some h
    simp only [intent_patterns, List.mem_cons, List.not_mem_nil, or_false] at hmem
    rcases hmem with rfl | rfl | rfl | rfl | rfl | rfl | rfl | rfl <;> decide

/-- C8 counterexample: the question "total vs average" contains both
"total" and "average", yet `parse` returns the intent "compare" (the
trigger "vs" is checked first), not "average". -/
theorem c8_priority_order_cex :
    str_contains (str_to_lower "total vs average") "total" = true ∧
    str_contains (str_to_lower "total vs average") "average" = true ∧
    (parse "total vs average" tbl_empty).intent = "compare" ∧
    "compare" ≠ "average" := by
  refine ⟨by decide, by decide, by rfl, by decide⟩

/-- The trigger phrases of the intents checked before `average`. -/
def pre_average_patterns : List String :=
  ["compare", "difference between", "vs", "versus",
   "highest", "maximum", "max", "most", "greatest", "largest",
   "lowest", "minimum", "min", "least", "smallest"]

/-- C8 (amended): intent extraction checks the table in the fixed priority
order compare, maximum, minimum, average, sum, trend, list, count, returns
the first intent whose any trigger phrase occurs case-insensitively in the
question, and defaults to "query" when none matches; consequently a
question containing both "total" and "average" resolves to "average"
provided no trigger phrase of the higher-priority intents compare, maximum
and minimum occurs in it. -/
theorem c8_priority_order (question : String) (t : Table) :
    ((∀ ip ∈ intent_patterns, ∀ p ∈ ip.2,
        str_contains (str_to_lower question) p = false) →
      (parse question t).intent = "query") ∧
    ((∀ p ∈ pre_average_patterns, str_contains (str_to_lower question) p = false) →
      str_contains (str_to_lower question) "total" = true →
      str_contains (str_to_lower question) "average" = true →
      (parse question t).intent = "average") := by
  constructor
  · intro h
    show extract_intent (str_to_lower question) = _
    rw [extract_intent]
    have hnone : intent_patterns.find?
        (fun ip => ip.2.any (fun p => str_contains (str_to_lower question) p)) = none := by
      rw [List.find?_eq_none]
      intro ip hip
      simp only [List.any_eq_true, not_exists, not_and, Bool.not_eq_true]
      intro p hp
      exact h ip hip p hp
    rw [hnone]
  · intro hno _ havg
    have hf : ∀ p ∈ pre_average_patterns, ¬ (str_contains (str_to_lower question) p = true) := by
      intro p hp
      rw [hno p hp]
      simp
    have h1 : ((["compare", "difference between", "vs", "versus"] : List String).any
        (fun p => str_contains (str_to_lower question) p)) = false := by
      rw [List.any_eq_false]
      intro x hx
      refine hf x ?_
      fin_cases hx <;> decide
    have h2 : ((["highest", "maximum", "max", "most", "greatest", "largest"] : List String).any
        (fun p => str_contains (str_to_lower question) p)) = false := by
      rw [List.any_eq_false]
      intro x hx
      refine hf x ?_
      fin_cases hx <;> decide
    have h3 : ((["lowest", "minimum", "min", "least", "smallest"] : List String).any
        (fun p => str_contains (str_to_lower question) p)) = false := by
      rw [List.any_eq_false]
      intro x hx
      refine hf x ?_
      fin_cases hx <;> decide
    have h4 : ((["average", "mean", "avg"] : List String).any
        (fun p => str_contains (str_to_lower question) p)) = true := by
      rw [List.any_eq_true]
      exact ⟨"average", by decide, havg⟩
    show extract_intent (str_to_lower question) = _
    rw [extract_intent]
    simp only [intent_patterns, List.find?, h1, h2, h3, h4]

theorem c8_priority_order_witness :
    (parse "hello there" tbl_empty).intent = "query" ∧
    (parse "what is the total and average rainfall" tbl_empty).intent = "average" :=
  ⟨(c8_priority_order "hello there" tbl_empty).1 (by decide),
   (c8_priority_order "what is the total and average rainfall" tbl_empty).2
     (by decide) (by decide) (by decide)⟩

/-- Whether the year-range regex matches at char position `i` of `s`
(word boundary before `i`, pattern from `i`): one occurrence of a range
"written in the question" in the claim's sense. -/
def try_range_at (s : String) (i : Nat) : Option (Int × Int) :=
  let l := s.data
  let prevOk := match (l.take i).getLast? with
    | none => true
    | some c => !is_word_char c
  if prevOk then (try_range (l.drop i)).map (fun r => (r.1, r.2.1)) else none

/-- C9 counterexample: in "1900 to 1902 to 1904" the range "1902 to 1904"
is written at position 8, so the claim demands 1903 among the returned
years; the non-overlapping `findall` scan has already consumed "1902" as
the end of the first range, and 1903 is absent from the result. -/
theorem c9_year_range_cex :
    try_range_at "1900 to 1902 to 1904" 8 = some (1902, 1904) ∧
    (1903 : Int) ∉ extract_years "1900 to 1902 to 1904" ∧
    extract_years "1900 to 1902 to 1904" = [1900, 1901, 1902, 1904] :=
  ⟨by decide, by decide, by decide⟩

theorem mem_int_range_incl (a b y : Int) :
    y ∈ int_range_incl a b ↔ a ≤ y ∧ y ≤ b := by
  rw [int_range_incl, List.mem_map]
  constructor
  · rintro ⟨k, hk, rfl⟩
    rw [List.mem_range] at hk
    omega
  · rintro ⟨h1, h2⟩
    refine ⟨(y - a).toNat, ?_, ?_⟩
    · rw [List.mem_range]
      omega
    · omega

/-- C9 (amended): year extraction returns the sorted ascending,
duplicate-free union of the whole-word 4-digit tokens in 1900–2199 and of
every integer in each inclusive range found by the single left-to-right
non-overlapping scan for `YYYY (to|-|–) YYYY` (text already consumed by one
range match cannot start another); both "2015 to 2018" and "2015-2018"
yield exactly the years 2015, 2016, 2017, 2018. -/
theorem c9_year_extraction (question : String) :
    (extract_years question).Pairwise (· < ·) ∧
    (∀ y : Int, y ∈ extract_years question ↔
      (y ∈ bare_years question ∨
        ∃ p ∈ year_ranges question, p.1 ≤ y ∧ y ≤ p.2)) ∧
    extract_years "2015 to 2018" = [2015, 2016, 2017, 2018] ∧
    extract_years "2015-2018" = [2015, 2016, 2017, 2018] := by
  rcases sorted_dedup_spec (bare_years question ++
      (year_ranges question).flatMap (fun p => int_range_incl p.1 p.2)) with ⟨hp, hm⟩
  refine ⟨hp, ?_, by decide, by decide⟩
  intro y
  rw [extract_years, hm y, List.mem_append]
  constructor
  · rintro (h | h)
    · exact Or.inl h
    · rcases List.mem_flatMap.mp h with ⟨p, hp1, hp2⟩
      exact Or.inr ⟨p, hp1, (mem_int_range_incl p.1 p.2 y).mp hp2⟩
  · rintro (h | ⟨p, hp1, hp2⟩)
    · exact Or.inl h
    · exact Or.inr (List.mem_flatMap.mpr ⟨p, hp1, (mem_int_range_incl p.1 p.2 y).mpr hp2⟩)

/-- The data of the general query carries exactly one item per numeric
candidate metric, in order. -/
theorem general_query_metrics (t : Table) (idxs : List Nat) (hne : idxs ≠ [])
    (ms : List String) :
    (general_query t idxs ms).map (·.metric) = ms.filter (fun m => is_numeric_col t m) := by
  rw [general_query, if_neg (by simp [List.isEmpty_iff, hne])]
  induction ms with
  | nil => rfl
  | cons m ms ih =>
    rw [List.filterMap_cons, List.filter_cons]
    rcases hcol : t.colData m with _ | d
    · rw [show is_numeric_col t m = false from by simp [is_numeric_col, hcol]]
      simpa using ih
    · cases d with
      | numeric vals =>
        rw [show is_numeric_col t m = true from by simp [is_numeric_col, hcol]]
        simpa using ih
      | text vals =>
        rw [show is_numeric_col t m = false from by simp [is_numeric_col, hcol]]
        simpa using ih

/-- C10: a parsed query whose intent is "list" (no branch of the dispatch
chain) is executed by the general/default branch: a bundle of kind
"general" with one ResultItem per numeric candidate metric carrying that
metric's mean, attained min and max, record count, and the full list of
contributing row indices. -/
theorem c10_list_intent_general (t : Table) (q : ParsedQuery) (idxs : List Nat)
    (hintent : q.intent = "list")
    (hf : apply_filters t q.filters = .ok idxs)
    (hne : idxs ≠ []) :
    execute_query t q = .ok (.general (general_query t idxs q.metrics)) ∧
    (general_query t idxs q.metrics).map (·.metric)
        = q.metrics.filter (fun m => is_numeric_col t m) ∧
    ∀ item ∈ general_query t idxs q.metrics,
      item.row_indices = idxs ∧ item.count = idxs.length ∧
      item.mean * (item.count : ℚ) = (idxs.map (fun i => t.num_at item.metric i)).sum ∧
      (∃ i ∈ idxs, t.num_at item.metric i = item.min_val) ∧
      (∀ i ∈ idxs, item.min_val ≤ t.num_at item.metric i) ∧
      (∃ i ∈ idxs, t.num_at item.metric i = item.max_val) ∧
      (∀ i ∈ idxs, t.num_at item.metric i ≤ item.max_val) := by
  refine ⟨?_, general_query_metrics t idxs hne q.metrics, ?_⟩
  · simp only [execute_query, hf, hintent]
    rfl
  · intro item hmem
    rw [general_query, if_neg (by simp [List.isEmpty_iff, hne])] at hmem
    rcases List.mem_filterMap.mp hmem with ⟨m, _, heq⟩
    rcases hcol : t.colData m with _ | d
    · rw [hcol] at heq; cases heq
    · cases d with
      | text vals => rw [hcol] at heq; cases heq
      | numeric vals =>
        rw [hcol] at heq
        injection heq with heq
        subst heq
        have hnum : ∀ i, t.num_at m i = vals.getD i 0 := by
          intro i; simp [Table.num_at, hcol]
        have hcells : idxs.map (fun i => vals.getD i 0) ≠ [] := by
          intro h
          exact hne (List.map_eq_nil_iff.mp h)
        rcases list_min_spec _ hcells with ⟨hmin_mem, hmin_lb⟩
        rcases list_max_spec _ hcells with ⟨hmax_mem, hmax_ub⟩
        have hn0 : ((idxs.length : ℚ)) ≠ 0 := by
          exact_mod_cast (List.length_pos.mpr hne).ne'
        refine ⟨rfl, rfl, ?_, ?_, ?_, ?_, ?_⟩
        · show mean_at vals idxs * ((idxs.length : ℚ)) = _
          rw [mean_at, div_mul_cancel₀ _ hn0]
          simp only [sum_at, hnum]
        · rcases List.mem_map.mp hmin_mem with ⟨i, hi, hv⟩
          exact ⟨i, hi, by rw [hnum i, hv]⟩
        · intro i hi
          rw [hnum i]
          exact hmin_lb _ (List.mem_map_of_mem _ hi)
        · rcases List.mem_map.mp hmax_mem with ⟨i, hi, hv⟩
          exact ⟨i, hi, by rw [hnum i, hv]⟩
        · intro i hi
          rw [hnum i]
          exact hmax_ub _ (List.mem_map_of_mem _ hi)

/-- The parsed query of the C10 witness: a list-intent query over a table
with one numeric column. -/
def query_w10 : ParsedQuery :=
  { original_question := "show rainfall"
    intent := "list"
    entities := ⟨[], [], []⟩
    years := []
    metrics := ["rain"]
    filters := ⟨[], [], [], []⟩ }

theorem c10_list_intent_general_witness :
    execute_query tbl_w2 query_w10 = .ok (.general (general_query tbl_w2 [0, 1] ["rain"])) ∧
    (general_query tbl_w2 [0, 1] ["rain"]).map (·.metric)
        = (["rain"] : List String).filter (fun m => is_numeric_col tbl_w2 m) ∧
    ∀ item ∈ general_query tbl_w2 [0, 1] ["rain"],
      item.row_indices = [0, 1] ∧ item.count = [0, 1].length ∧
      item.mean * (item.count : ℚ) = ([0, 1].map (fun i => tbl_w2.num_at item.metric i)).sum ∧
      (∃ i ∈ [0, 1], tbl_w2.num_at item.metric i = item.min_val) ∧
      (∀ i ∈ [0, 1], item.min_val ≤ tbl_w2.num_at item.metric i) ∧
      (∃ i ∈ [0, 1], tbl_w2.num_at item.metric i = item.max_val) ∧
      (∀ i ∈ [0, 1], tbl_w2.num_at item.metric i ≤ item.max_val) :=
  c10_list_intent_general tbl_w2 query_w10 [0, 1] rfl rfl (by decide)

/-- Executing a query is dispatching on the intent once filtering succeeded. -/
theorem execute_query_ok (t : Table) (q : ParsedQuery) (idxs : List Nat)
    (hf : apply_filters t q.filters = .ok idxs) :
    execute_query t q =
      (if q.intent = "compare" then (compare_entities t idxs q.filters q.metrics).map .comparison
       else if q.intent = "maximum" then (find_maximum t idxs q.metrics).map .maximum
       else if q.intent = "minimum" then (find_minimum t idxs q.metrics).map .minimum
       else if q.intent = "average" then .ok (.average (calculate_average t idxs q.metrics))
       else if q.intent = "sum" then .ok (.sum (calculate_sum t idxs q.metrics))
       else if q.intent = "trend" then (analyze_trend t idxs q.metrics).map .trend
       else if q.intent = "count" then .ok (.count (count_records idxs))
       else .ok (.general (general_query t idxs q.metrics))) := by
  rw [execute_query, hf]
  rfl

/-- A bundle with no data renders as the fixed insufficient-data message. -/
theorem generate_answer_empty (question : String) (b : ResultBundle) (t : Table)
    (hb : b.dataEmpty = true) :
    generate_answer question b t = ⟨insufficient_msg, []⟩ := by
  rw [generate_answer.eq_def, if_pos hb]

theorem find_maximum_nil_idxs (t : Table) (metrics : List String) :
    find_maximum t [] metrics = .ok [] := by
  rcases metrics with _ | ⟨m, ms⟩ <;> rfl

theorem find_minimum_nil_idxs (t : Table) (metrics : List String) :
    find_minimum t [] metrics = .ok [] := by
  rcases metrics with _ | ⟨m, ms⟩ <;> rfl

theorem analyze_trend_nil_idxs (t : Table) (metrics : List String) :
    analyze_trend t [] metrics = .ok [] := by
  rcases hyc : find_year_columns t with _ | ⟨yc, ycs⟩ <;>
    rcases metrics with _ | ⟨m, ms⟩ <;>
    simp [analyze_trend, hyc]

theorem compare_entities_nil_idxs (t : Table) (f : Filters) (metrics : List String) :
    compare_entities t [] f metrics = .ok [] := by
  rcases hsc : find_state_columns t with _ | ⟨sc, scs⟩ <;>
    rcases metrics with _ | ⟨m, ms⟩ <;>
    simp only [compare_entities, hsc]
  by_cases hm0 : m.isEmpty <;> by_cases hs0 : f.states.isEmpty <;>
    simp [hm0, hs0, compare_go_nil_idxs]

/-- C1 (amended): when the filters eliminate all rows, execution yields an
empty-data bundle and rendering yields exactly the fixed insufficient-data
message with no citations — for every intent except `count`, which instead
yields one ResultItem with count 0 and no indices, rendered as a
zero-record answer (with no citations) that differs from the fixed
message. -/
theorem c1_empty_result_contract (t : Table) (q : ParsedQuery)
    (hf : apply_filters t q.filters = .ok []) :
    (q.intent ≠ "count" →
      ∃ b, execute_query t q = .ok b ∧ b.dataEmpty = true ∧
        generate_answer q.original_question b t = ⟨insufficient_msg, []⟩) ∧
    (q.intent = "count" →
      execute_query t q = .ok (.count [⟨0, []⟩]) ∧
      generate_answer q.original_question (.count [⟨0, []⟩]) t
        = ⟨"There are **0** records matching your query.", []⟩ ∧
      ("There are **0** records matching your query." : String) ≠ insufficient_msg) := by
  have hx := execute_query_ok t q [] hf
  constructor
  · intro hcount
    rw [hx]
    by_cases h1 : q.intent = "compare"
    · rw [if_pos h1]
      exact ⟨.comparison [], by rw [compare_entities_nil_idxs]; rfl, rfl,
        generate_answer_empty _ _ _ rfl⟩
    rw [if_neg h1]
    by_cases h2 : q.intent = "maximum"
    · rw [if_pos h2]
      exact ⟨.maximum [], by rw [find_maximum_nil_idxs]; rfl, rfl,
        generate_answer_empty _ _ _ rfl⟩
    rw [if_neg h2]
    by_cases h3 : q.intent = "minimum"
    · rw [if_pos h3]
      exact ⟨.minimum [], by rw [find_minimum_nil_idxs]; rfl, rfl,
        generate_answer_empty _ _ _ rfl⟩
    rw [if_neg h3]
    by_cases h4 : q.intent = "average"
    · rw [if_pos h4]
      exact ⟨.average [], by rw [show calculate_average t [] q.metrics = [] from by
        simp [calculate_average]], rfl, generate_answer_empty _ _ _ rfl⟩
    rw [if_neg h4]
    by_cases h5 : q.intent = "sum"
    · rw [if_pos h5]
      exact ⟨.sum [], by rw [show calculate_sum t [] q.metrics = [] from by
        simp [calculate_sum]], rfl, generate_answer_empty _ _ _ rfl⟩
    rw [if_neg h5]
    by_cases h6 : q.intent = "trend"
    · rw [if_pos h6]
      exact ⟨.trend [], by rw [analyze_trend_nil_idxs]; rfl, rfl,
        generate_answer_empty _ _ _ rfl⟩
    rw [if_neg h6, if_neg hcount]
    exact ⟨.general [], by rfl, rfl, generate_answer_empty _ _ _ rfl⟩
  · intro hq
    rw [hx, hq]
    refine ⟨by rfl, by rfl, by decide⟩

/-- The table of the C1 scenario: one row, state "Pune", year 2015. -/
def tbl_w1 : Table :=
  ⟨[⟨"state", .text [some "Pune"]⟩, ⟨"year", .numeric [2015]⟩,
    ⟨"rainfall", .numeric [10]⟩], 1⟩

/-- C1 counterexample: the year filter 1999 eliminates every row, yet the
count intent returns a bundle whose data is NOT empty (one item with count
0), and rendering it yields a zero-record answer instead of the fixed
insufficient-data message. -/
theorem c1_empty_result_contract_cex :
    apply_filters tbl_w1 (parse "how many records in 1999" tbl_w1).filters = .ok [] ∧
    execute_query tbl_w1 (parse "how many records in 1999" tbl_w1)
      = .ok (.count [⟨0, []⟩]) ∧
    (ResultBundle.count [⟨0, []⟩]).dataEmpty = false ∧
    generate_answer (parse "how many records in 1999" tbl_w1).original_question
        (.count [⟨0, []⟩]) tbl_w1
      = ⟨"There are **0** records matching your query.", []⟩ ∧
    ("There are **0** records matching your query." : String) ≠ insufficient_msg :=
  ⟨by rfl, by rfl, by rfl, by rfl, by decide⟩

theorem c1_empty_result_contract_witness :
    (∃ b, execute_query tbl_w1 (parse "highest rainfall in 1999" tbl_w1) = .ok b ∧
      b.dataEmpty = true ∧
      generate_answer (parse "highest rainfall in 1999" tbl_w1).original_question b tbl_w1
        = ⟨insufficient_msg, []⟩) ∧
    (execute_query tbl_w1 (parse "how many records in 1999" tbl_w1) = .ok (.count [⟨0, []⟩]) ∧
      generate_answer (parse "how many records in 1999" tbl_w1).original_question
          (.count [⟨0, []⟩]) tbl_w1
        = ⟨"There are **0** records matching your query.", []⟩ ∧
      ("There are **0** records matching your query." : String) ≠ insufficient_msg) :=
  ⟨(c1_empty_result_contract tbl_w1 (parse "highest rainfall in 1999" tbl_w1) (by rfl)).1
      (by decide),
   (c1_empty_result_contract tbl_w1 (parse "how many records in 1999" tbl_w1) (by rfl)).2
      (by rfl)⟩

/-- The table of the C3 scenario. -/
def tbl_w3 : Table :=
  ⟨[⟨"state", .text [some "Pune", some "Mumbai"]⟩, ⟨"rainfall", .numeric [10, 20]⟩], 2⟩

/-- C3 counterexample: the count intent's answer surfaces the record count
(the numeric fact "2") while returning an EMPTY citation list, although the
ResultItem carries the justifying row indices [0, 1]. -/
theorem c3_citation_invariant_cex :
    execute_query tbl_w3 (parse "how many records are there" tbl_w3)
      = .ok (.count [⟨2, [0, 1]⟩]) ∧
    generate_answer "how many records are there" (.count [⟨2, [0, 1]⟩]) tbl_w3
      = ⟨"There are **2** records matching your query.", []⟩ :=
  ⟨by rfl, by rfl⟩

/-- C3 (amended): the maximum and minimum answers accompany their surfaced
value with exactly the citation built from the justifying row index; the
count intent is the exception: its answer surfaces the record count with an
empty citation list even though justifying row indices reach the renderer. -/
theorem c3_citation_invariant (t : Table) (question : String) :
    (∀ (item : MaxMinItem) (rest : List MaxMinItem),
      (generate_answer question (.maximum (item :: rest)) t).citations
        = [create_citation t item.row_index item.metric]) ∧
    (∀ (item : MaxMinItem) (rest : List MaxMinItem),
      (generate_answer question (.minimum (item :: rest)) t).citations
        = [create_citation t item.row_index item.metric]) ∧
    (∀ (item : CountItem) (rest : List CountItem),
      generate_answer question (.count (item :: rest)) t = ⟨count_msg item.count, []⟩) :=
  ⟨fun _ _ => rfl, fun _ _ => rfl, fun _ _ => rfl⟩

/-- C4 counterexample: a general-intent ResultItem with 4 contributing rows
renders exactly 3 literal citations and NO summary citation, violating the
claimed 3-plus-summary truncation shape for the general intent. -/
theorem c4_citation_truncation_cex :
    (generate_answer "rainfall data please"
        (.general [⟨"rain", 5/2, 1, 4, 4, [0, 1, 2, 3]⟩]) tbl_w2).citations
      = [create_citation tbl_w2 0 "rain", create_citation tbl_w2 1 "rain",
         create_citation tbl_w2 2 "rain"] ∧
    (generate_answer "rainfall data please"
        (.general [⟨"rain", 5/2, 1, 4, 4, [0, 1, 2, 3]⟩]) tbl_w2).citations.length = 3 ∧
    more_rows_msg 1 ∉ (generate_answer "rainfall data please"
        (.general [⟨"rain", 5/2, 1, 4, 4, [0, 1, 2, 3]⟩]) tbl_w2).citations :=
  ⟨by rfl, by rfl, by decide⟩

/-- C4 (amended): the 3-literal-citations-plus-one-summary truncation (with
the summary count equal to contributing_count − 3) holds for the average
and sum intents; the general intent instead cites only the first 3
contributing rows with no summary entry (and trend cites one row per
year). -/
theorem c4_citation_truncation (t : Table) (question : String)
    (item : AggItem) (gitem : GeneralItem)
    (h : 3 < item.row_indices.length) (hg : 3 < gitem.row_indices.length) :
    (generate_answer question (.average [item]) t).citations
      = (item.row_indices.take 3).map (fun i => create_citation t i item.metric)
          ++ [more_rows_msg (item.row_indices.length - 3)] ∧
    (generate_answer question (.sum [item]) t).citations
      = (item.row_indices.take 3).map (fun i => create_citation t i item.metric)
          ++ [more_rows_msg (item.row_indices.length - 3)] ∧
    (generate_answer question (.general [gitem]) t).citations
      = (gitem.row_indices.take 3).map (fun i => create_citation t i gitem.metric) := by
  refine ⟨?_, ?_, ?_⟩
  · show [item].flatMap (agg_item_citations t) = _
    simp [agg_item_citations, h]
  · show [item].flatMap (agg_item_citations t) = _
    simp [agg_item_citations, h]
  · show [gitem].flatMap (fun it =>
        (it.row_indices.take 3).map (fun i => create_citation t i it.metric)) = _
    simp

/-- The aggregation item of the C4 witness: five contributing rows. -/
def item_w4 : AggItem := ⟨"rain", 0, 5, [0, 1, 2, 3, 4]⟩

/-- The general item of the C4 witness: four contributing rows. -/
def gitem_w4 : GeneralItem := ⟨"rain", 0, 0, 0, 4, [0, 1, 2, 3]⟩

theorem c4_citation_truncation_witness :
    (generate_answer "q" (.average [item_w4]) tbl_w2).citations
      = (item_w4.row_indices.take 3).map (fun i => create_citation tbl_w2 i item_w4.metric)
          ++ [more_rows_msg (item_w4.row_indices.length - 3)] ∧
    (generate_answer "q" (.sum [item_w4]) tbl_w2).citations
      = (item_w4.row_indices.take 3).map (fun i => create_citation tbl_w2 i item_w4.metric)
          ++ [more_rows_msg (item_w4.row_indices.length - 3)] ∧
    (generate_answer "q" (.general [gitem_w4]) tbl_w2).citations
      = (gitem_w4.row_indices.take 3).map (fun i => create_citation tbl_w2 i gitem_w4.metric) :=
  c4_citation_truncation tbl_w2 "q" item_w4 gitem_w4 (by decide) (by decide)

/-- The table of the C6 counterexample: the month column is numeric, as the
loader produces for month numbers. -/
def tbl_w6 : Table :=
  ⟨[⟨"month", .numeric [1, 2]⟩, ⟨"rainfall_mm", .numeric [100, 200]⟩], 2⟩

/-- C6 counterexample: the question mentions January, so the month filter
applies; the first month role column is numeric, the `.str` accessor raises,
and `execute` fails instead of degrading. -/
theorem c6_execute_total_cex :
    (parse "rainfall in january" tbl_w6).filters.months = ["january", "jan"] ∧
    execute_query tbl_w6 (parse "rainfall in january" tbl_w6) = .error () :=
  ⟨by rfl, by rfl⟩

/-- Every metric candidate produced by the parser names a numeric column. -/
theorem extract_metrics_numeric (question : String) (t : Table)
    (hnd : (t.cols.map (·.name)).Nodup) :
    ∀ m ∈ extract_metrics question t, ∃ vals, t.colData m = some (.numeric vals) := by
  intro m hm
  have hsub : m ∈ (t.cols.filter (fun c => match c.data with
      | .numeric _ => true
      | .text _ => false)).map (·.name) := by
    simp only [extract_metrics] at hm
    split at hm
    · exact hm
    · exact List.mem_of_mem_filter hm
  rcases List.mem_map.mp hsub with ⟨c, hc, rfl⟩
  rcases List.mem_filter.mp hc with ⟨hcin, hcnum⟩
  rcases hd : c.data with vals | svals
  · exact ⟨vals, by rw [colData_of_mem t c hnd hcin, hd]⟩
  · rw [hd] at hcnum
    cases hcnum

/-- Filtering succeeds whenever any applicable month role column is text. -/
theorem apply_filters_ok_of_month (t : Table) (f : Filters)
    (hmonth : ∀ (mc : String) (mcs : List String), find_month_columns t = mc :: mcs →
      f.months ≠ [] → ∃ svals, t.colData mc = some (.text svals)) :
    ∃ idxs, apply_filters t f = .ok idxs := by
  by_cases hm0 : f.months.isEmpty
  · simp only [apply_filters, if_pos hm0]
    exact ⟨_, rfl⟩
  · rcases hmc : find_month_columns t with _ | ⟨mc, mcs⟩
    · simp only [apply_filters, if_neg hm0, hmc]
      exact ⟨_, rfl⟩
    · rcases hmonth mc mcs hmc (by simpa [List.isEmpty_iff] using hm0) with ⟨svals, hcol⟩
      simp only [apply_filters, if_neg hm0, hmc, hcol]
      exact ⟨_, rfl⟩

theorem find_maximum_ok (t : Table) (idxs : List Nat) (metrics : List String)
    (hm : ∀ m ∈ metrics, ∃ vals, t.colData m = some (.numeric vals)) :
    ∃ items, find_maximum t idxs metrics = .ok items := by
  rcases metrics with _ | ⟨m, ms⟩
  · rcases idxs with _ | ⟨i0, irest⟩ <;> exact ⟨[], rfl⟩
  · rcases idxs with _ | ⟨i0, irest⟩
    · exact ⟨[], rfl⟩
    · rcases hm m (List.mem_cons_self _ _) with ⟨vals, hcol⟩
      simp only [find_maximum, hcol]
      exact ⟨_, rfl⟩

theorem find_minimum_ok (t : Table) (idxs : List Nat) (metrics : List String)
    (hm : ∀ m ∈ metrics, ∃ vals, t.colData m = some (.numeric vals)) :
    ∃ items, find_minimum t idxs metrics = .ok items := by
  rcases metrics with _ | ⟨m, ms⟩
  · rcases idxs with _ | ⟨i0, irest⟩ <;> exact ⟨[], rfl⟩
  · rcases idxs with _ | ⟨i0, irest⟩
    · exact ⟨[], rfl⟩
    · rcases hm m (List.mem_cons_self _ _) with ⟨vals, hcol⟩
      simp only [find_minimum, hcol]
      exact ⟨_, rfl⟩

theorem compare_entities_ok (t : Table) (idxs : List Nat) (f : Filters)
    (metrics : List String)
    (hm : ∀ m ∈ metrics, ∃ vals, t.colData m = some (.numeric vals)) :
    ∃ items, compare_entities t idxs f metrics = .ok items := by
  rcases hsc : find_state_columns t with _ | ⟨sc, scs⟩
  · rcases metrics with _ | ⟨m, ms⟩ <;> simp [compare_entities, hsc]
  · rcases metrics with _ | ⟨m, ms⟩
    · simp [compare_entities, hsc]
    · rcases hm m (List.mem_cons_self _ _) with ⟨vals, hcol⟩
      simp only [compare_entities, hsc]
      by_cases hm0 : m.isEmpty
      · rw [if_pos hm0]; exact ⟨[], rfl⟩
      · rw [if_neg hm0]
        by_cases hs0 : f.states.isEmpty
        · rw [if_pos hs0]; exact ⟨[], rfl⟩
        · rw [if_neg hs0]
          exact compare_go_ok t idxs sc m vals hcol f.states

theorem analyze_trend_ok (t : Table) (idxs : List Nat) (metrics : List String)
    (hm : ∀ m ∈ metrics, ∃ vals, t.colData m = some (.numeric vals))
    (hy : ∀ (yc : String) (ycs : List String), find_year_columns t = yc :: ycs →
      ∃ yvals, t.colData yc = some (.numeric yvals)) :
    ∃ items, analyze_trend t idxs metrics = .ok items := by
  rcases hyc : find_year_columns t with _ | ⟨yc, ycs⟩
  · rcases metrics with _ | ⟨m, ms⟩ <;> rcases idxs with _ | ⟨i0, irest⟩ <;>
      simp [analyze_trend, hyc]
  · rcases metrics with _ | ⟨m, ms⟩
    · rcases idxs with _ | ⟨i0, irest⟩ <;> simp [analyze_trend, hyc]
    · rcases idxs with _ | ⟨i0, irest⟩
      · simp [analyze_trend, hyc]
      · rcases hm m (List.mem_cons_self _ _) with ⟨vals, hcol⟩
        rcases hy yc ycs hyc with ⟨yvals, hycol⟩
        simp only [analyze_trend, hyc, hcol, hycol]
        exact ⟨_, rfl⟩

/-- C6 (amended): execution of a parsed query never raises — missing role
columns skip their filter dimension and degenerate inputs produce empty
bundles — provided the first month role column (when a month filter
applies) is text-typed and the first year role column (for the trend
intent) is numeric; a month filter hitting a numeric month column raises
(the counterexample), contrary to the claim's "regardless of its type". -/
theorem c6_execute_total (t : Table) (question : String)
    (hnd : (t.cols.map (·.name)).Nodup)
    (hmonth : ∀ (mc : String) (mcs : List String), find_month_columns t = mc :: mcs →
      (parse question t).filters.months ≠ [] →
      ∃ svals, t.colData mc = some (.text svals))
    (hyear : (parse question t).intent = "trend" →
      ∀ (yc : String) (ycs : List String), find_year_columns t = yc :: ycs →
      ∃ yvals, t.colData yc = some (.numeric yvals)) :
    ∃ b, execute_query t (parse question t) = .ok b := by
  have hmet : ∀ m ∈ (parse question t).metrics, ∃ vals, t.colData m = some (.numeric vals) :=
    extract_metrics_numeric (str_to_lower question) t hnd
  rcases apply_filters_ok_of_month t (parse question t).filters hmonth with ⟨idxs, hf⟩
  rw [execute_query_ok t (parse question t) idxs hf]
  by_cases h1 : (parse question t).intent = "compare"
  · rw [if_pos h1]
    rcases compare_entities_ok t idxs (parse question t).filters (parse question t).metrics hmet
      with ⟨items, hok⟩
    exact ⟨.comparison items, by rw [hok]; rfl⟩
  rw [if_neg h1]
  by_cases h2 : (parse question t).intent = "maximum"
  · rw [if_pos h2]
    rcases find_maximum_ok t idxs (parse question t).metrics hmet with ⟨items, hok⟩
    exact ⟨.maximum items, by rw [hok]; rfl⟩
  rw [if_neg h2]
  by_cases h3 : (parse question t).intent = "minimum"
  · rw [if_pos h3]
    rcases find_minimum_ok t idxs (parse question t).metrics hmet with ⟨items, hok⟩
    exact ⟨.minimum items, by rw [hok]; rfl⟩
  rw [if_neg h3]
  by_cases h4 : (parse question t).intent = "average"
  · rw [if_pos h4]
    exact ⟨_, rfl⟩
  rw [if_neg h4]
  by_cases h5 : (parse question t).intent = "sum"
  · rw [if_pos h5]
    exact ⟨_, rfl⟩
  rw [if_neg h5]
  by_cases h6 : (parse question t).intent = "trend"
  · rw [if_pos h6]
    rcases analyze_trend_ok t idxs (parse question t).metrics hmet (hyear h6)
      with ⟨items, hok⟩
    exact ⟨.trend items, by rw [hok]; rfl⟩
  rw [if_neg h6]
  by_cases h7 : (parse question t).intent = "count"
  · rw [if_pos h7]
    exact ⟨_, rfl⟩
  rw [if_neg h7]
  exact ⟨_, rfl⟩

theorem c6_execute_total_witness :
    ∃ b, execute_query tbl_w3 (parse "total rainfall" tbl_w3) = .ok b :=
  c6_execute_total tbl_w3 "total rainfall" (by decide)
    (by
      intro mc mcs h _
      rw [show find_month_columns tbl_w3 = [] from rfl] at h
      cases h)
    (by
      intro _ yc ycs h
      rw [show find_year_columns tbl_w3 = [] from rfl] at h
      cases h)
